import Mathlib

/-
Verification development for the typemux library: a type-keyed dispatch
and value-construction registry core.

The embedding mirrors the Go source:
  * `GoType` models `reflect.Type` (a concrete runtime type identity,
    distinguishing a type from a pointer to it); `GoVal` models a concrete
    runtime value carrying its dynamic type; `AnyVal := Option GoVal`
    models an `any` interface value, `none` being the nil interface.
  * Handlers and middleware are modelled over a trace-state function
    `TraceM` so that execution order is observable; a call outcome is
    `Except GoPanic (Option GoError)`: `Except.error` is a runtime panic,
    `Except.ok none` is a nil error, `Except.ok (some e)` a returned error.
  * Go maps held by registries are association lists (first match wins on
    lookup, insertion prepends, hence overwrite semantics); a mutable
    registry is a reference (`ref`) into a heap (`Heap`) of map cells, so
    that in-place mutation through the registry pointer, and the fact that
    `Seal` copies the map contents out of the heap (`maps.Clone`), are
    both expressible. A cell holds `Option` of a list: `none` is a nil map.
-/

/-- Runtime type identity, as produced by reflection: a base (non-pointer)
type tagged by a natural number, or a pointer type to another type. -/
inductive GoType where
  | base (n : Nat)
  | ptr (t : GoType)
deriving DecidableEq, Repr

/-- Kind test corresponding to `typ.Kind() == reflect.Ptr`. -/
def GoType.isPtr : GoType → Bool
  | GoType.base _ => false
  | GoType.ptr _ => true

/-- `typ.Elem()`: the pointee type of a pointer type. Only ever consulted
under an `isPtr` guard, as in the source. -/
def GoType.elem : GoType → GoType
  | GoType.base n => GoType.base n
  | GoType.ptr t => t

/-- A concrete runtime value: a base value with a payload, a non-nil
pointer to a value, or a typed nil pointer (whose element type is
recorded, as `(*T)(nil)` still has dynamic type `*T`). -/
inductive GoVal where
  | baseVal (n : Nat) (payload : Nat)
  | ptrVal (pointee : GoVal)
  | nilPtr (elemTy : GoType)
deriving DecidableEq, Repr

/-- Dynamic type of a concrete value. -/
def GoVal.typeOf : GoVal → GoType
  | GoVal.baseVal n _ => GoType.base n
  | GoVal.ptrVal p => GoType.ptr p.typeOf
  | GoVal.nilPtr t => GoType.ptr t

/-- An `any` interface value: `none` is the nil interface. -/
abbrev AnyVal := Option GoVal

/-- `reflect.TypeOf(v)`: `none` when `v` is the nil interface. -/
def typeOfAny : AnyVal → Option GoType
  | none => none
  | some v => some v.typeOf

/-- A runtime panic, as raised by the Go runtime (never a value returned
to the caller). -/
inductive GoPanic where
  | nilTypeKind
  | elemOfNonPointer
  | interfaceOnZeroValue
deriving DecidableEq, Repr

/-- `reflect.ValueOf(v).Elem().Interface()`: dereference the dispatched
value in the pointer-fallback path. Panics when `v` is the nil interface
or a non-pointer (Elem is illegal) and when `v` is a typed nil pointer
(Elem yields the zero Value, on which Interface panics). -/
def derefAny : AnyVal → Except GoPanic GoVal
  | none => Except.error GoPanic.elemOfNonPointer
  | some (GoVal.baseVal _ _) => Except.error GoPanic.elemOfNonPointer
  | some (GoVal.ptrVal p) => Except.ok p
  | some (GoVal.nilPtr _) => Except.error GoPanic.interfaceOnZeroValue

/-- A factory key: an arbitrary comparable value (the source stores keys
of any comparable type in one `map[any]` — e.g. strings and ints). -/
inductive FKey where
  | str (s : String)
  | int (n : Int)
deriving DecidableEq, Repr

/-- The error values the core can return. `user n` stands for an error
originated by a handler, middleware or constructor (opaque to the core
and passed through verbatim). `typeAssertFailed` is the error built by
`wrapTypedHandler` when the stored entry's type assertion fails. -/
inductive GoError where
  | handlerNotFound (t : GoType)
  | factoryNotFound (k : FKey)
  | dataTypeNotSupported (expected : GoType) (actual : Option GoType)
  | typeAssertFailed (expected : GoType) (actual : Option GoType)
  | user (n : Nat)
deriving DecidableEq, Repr

/-- The context passed through dispatch; opaque pass-through data. -/
abbrev Ctx := Nat

/-- Trace-state computation: threads a list of observed events, so that
the execution order of middleware and handlers is provable. -/
abbrev TraceM (α : Type) := List String → List String × α

/-- Outcome of a dispatch call: a panic, or a returned `error` value
(`none` = nil error). -/
abbrev CallOut := Except GoPanic (Option GoError)

/-- Whether a call outcome is a runtime panic. -/
def isPanic : CallOut → Bool
  | Except.error _ => true
  | Except.ok _ => false

/-- Lift a non-panicking typed-handler computation into a call outcome. -/
def liftOut (m : TraceM (Option GoError)) : TraceM CallOut :=
  fun s => ((m s).1, Except.ok (m s).2)

/-- `handlerFuncAny`: the type-erased handler entry stored in the map. -/
abbrev HandlerFuncAny := Ctx → AnyVal → TraceM CallOut

/-- `HandlerFunc[T]`: a typed handler (the value it receives is meant to
have the dynamic type it was registered for; the assertion guarding this
lives in `wrapTypedHandler`). Registered handlers are total Lean
functions, i.e. they do not themselves panic. -/
abbrev HandlerFunc := Ctx → GoVal → TraceM (Option GoError)

/-- `Middleware[T]`: a typed wrapper around a `HandlerFunc`. -/
abbrev Middleware := HandlerFunc → HandlerFunc

/-- `DispatchMiddleware`: a cross-cutting wrapper around a dispatch call,
receiving the event as `any`. -/
abbrev DispatchMiddleware := Ctx → AnyVal → (Ctx → TraceM CallOut) → TraceM CallOut

/-- First-match association-list lookup (Go map read). -/
def alistLookup {κ α : Type} [DecidableEq κ] : List (κ × α) → κ → Option α
  | [], _ => none
  | (k, x) :: rest, q => if k = q then some x else alistLookup rest q

/-- The handler map held by a dispatch registry; `none` is a nil map. -/
abbrev HMap := Option (List (GoType × HandlerFuncAny))

/-- Go map read on a possibly-nil handler map (a nil-map read misses). -/
def hLookup (h : HMap) (t : Option GoType) : Option HandlerFuncAny :=
  match h, t with
  | none, _ => none
  | some _, none => none
  | some l, some k => alistLookup l k

/-- The free function `call(typ, ctx, v, h)`: exact lookup first; if the
type identity is a pointer, fall back to the pointee's identity and invoke
with the dereferenced value; otherwise `ErrHandlerNotFound`. Calling
`typ.Kind()` on a nil `reflect.Type` panics, as does dereferencing a nil
or non-pointer value in the fallback path. -/
def call (typ : Option GoType) (ctx : Ctx) (v : AnyVal) (h : HMap) : TraceM CallOut :=
  match hLookup h typ with
  | some handler => handler ctx v
  | none =>
    match typ with
    | none => fun s => (s, Except.error GoPanic.nilTypeKind)
    | some t =>
      if t.isPtr then
        match hLookup h (some t.elem) with
        | some handler =>
          match derefAny v with
          | Except.ok pv => handler ctx (some pv)
          | Except.error p => fun s => (s, Except.error p)
        | none => fun s => (s, Except.ok (some (GoError.handlerNotFound t)))
      else fun s => (s, Except.ok (some (GoError.handlerNotFound t)))

/-- Alias for the free `call`, used inside the registry methods (whose
own short name would otherwise shadow it). -/
def callOnMap : Option GoType → Ctx → AnyVal → HMap → TraceM CallOut := call

/-- The `dispatcher` interface: anything exposing a `call` method. -/
structure Dispatcher where
  callFn : Option GoType → Ctx → AnyVal → TraceM CallOut

/-- `Dispatch(disp, ctx, v, middleware...)`: computes the type identity
once, then (when middleware is supplied) wraps the base call with each
middleware iterating the list in reverse, so the first-listed middleware
is outermost. -/
def Dispatch (disp : Dispatcher) (ctx : Ctx) (v : AnyVal)
    (middleware : List DispatchMiddleware) : TraceM CallOut :=
  match middleware with
  | [] => disp.callFn (typeOfAny v) ctx v
  | _ :: _ =>
    List.foldr (fun mw next => fun c => mw c v next)
      (fun c => disp.callFn (typeOfAny v) c v) middleware ctx

/-- `applyMiddleware(base, middleware...)`: wraps `base` iterating the
list in reverse, so the first-listed typed middleware is outermost. -/
def applyMiddleware (base : HandlerFunc) (middleware : List Middleware) : HandlerFunc :=
  List.foldr (fun m acc => m acc) base middleware

/-- `wrapTypedHandler[T]`: type-erases a typed handler behind a runtime
type assertion; on assertion failure it returns the "expected T, got ..."
error instead of invoking the handler. -/
def wrapTypedHandler (T : GoType) (h : HandlerFunc) : HandlerFuncAny :=
  fun ctx v =>
    match v with
    | some val =>
      if val.typeOf = T then liftOut (h ctx val)
      else fun s => (s, Except.ok (some (GoError.typeAssertFailed T (some val.typeOf))))
    | none => fun s => (s, Except.ok (some (GoError.typeAssertFailed T none)))

/-- The heap of dispatch-registry map cells; a `DispatchRegistry` value is
a pointer to one cell. -/
abbrev Heap := List HMap

/-- `*DispatchRegistry`: a pointer to its handler-map field. -/
structure DispatchRegistry where
  ref : Nat

/-- Read a heap cell (out-of-range reads yield a nil map). -/
def heapGet : Heap → Nat → HMap
  | [], _ => none
  | m :: _, 0 => m
  | _ :: rest, n + 1 => heapGet rest n

/-- Write a heap cell in place. -/
def heapSet : Heap → Nat → HMap → Heap
  | [], _, _ => []
  | _ :: rest, 0, m => m :: rest
  | x :: rest, n + 1, m => x :: heapSet rest n m

/-- `NewDispatchRegistry()`: allocates a registry with a pre-initialized
empty map. -/
def NewDispatchRegistry (σ : Heap) : DispatchRegistry × Heap :=
  (⟨σ.length⟩, σ ++ [some []])

/-- `(*DispatchRegistry).registerDispatch`: under the write lock, lazily
replaces a nil map with an empty one, then writes the entry (overwrite on
duplicate key). Always succeeds; no error path. -/
def DispatchRegistry.registerDispatch (σ : Heap) (r : DispatchRegistry)
    (typ : GoType) (funcAny : HandlerFuncAny) : Heap :=
  match heapGet σ r.ref with
  | none => heapSet σ r.ref (some [(typ, funcAny)])
  | some l => heapSet σ r.ref (some ((typ, funcAny) :: l))

/-- `(*DispatchRegistry).call`: reads the map under the read lock and
delegates to the free `call`. -/
def DispatchRegistry.call (σ : Heap) (r : DispatchRegistry)
    (typ : Option GoType) (ctx : Ctx) (v : AnyVal) : TraceM CallOut :=
  callOnMap typ ctx v (heapGet σ r.ref)

/-- `maps.Clone`: copies the entries into a fresh map (nil maps clone to
nil); contents-identical, so on map values it is the identity. -/
def mapsClone (m : HMap) : HMap := m

/-- `SealedDispatchRegistry`: an immutable dispatcher holding the cloned
map contents by value (not a heap reference), so later writes through the
mutable registry cannot reach it. -/
structure SealedDispatchRegistry where
  h : HMap

/-- `(*DispatchRegistry).Seal`: snapshot the current map contents. -/
def DispatchRegistry.Seal (σ : Heap) (r : DispatchRegistry) : SealedDispatchRegistry :=
  ⟨mapsClone (heapGet σ r.ref)⟩

/-- `(*SealedDispatchRegistry).call`. -/
def SealedDispatchRegistry.call (s : SealedDispatchRegistry)
    (typ : Option GoType) (ctx : Ctx) (v : AnyVal) : TraceM CallOut :=
  callOnMap typ ctx v s.h

/-- View a mutable registry (at a given heap state) as a `dispatcher`. -/
def DispatchRegistry.toDispatcher (σ : Heap) (r : DispatchRegistry) : Dispatcher :=
  ⟨fun t c v => DispatchRegistry.call σ r t c v⟩

/-- View a sealed registry as a `dispatcher`. -/
def SealedDispatchRegistry.toDispatcher (s : SealedDispatchRegistry) : Dispatcher :=
  ⟨fun t c v => SealedDispatchRegistry.call s t c v⟩

/-- `RegisterDispatch[T]`: composes the typed middleware around the
handler (outermost-first), type-erases the result behind the assertion
wrapper, and stores it under `T`'s identity. -/
def RegisterDispatch (σ : Heap) (r : DispatchRegistry) (T : GoType)
    (handler : HandlerFunc) (middleware : List Middleware) : Heap :=
  DispatchRegistry.registerDispatch σ r T
    (wrapTypedHandler T (applyMiddleware handler middleware))

/-- `factoryFuncAny`: the type-erased constructor entry stored in the
factory map: `(data any) -> (any, error)`. Registered constructors are
total, i.e. they do not themselves panic. -/
abbrev FactoryFuncAny := AnyVal → AnyVal × Option GoError

/-- The factory map held by a factory registry; `none` is a nil map. -/
abbrev FMap := Option (List (FKey × FactoryFuncAny))

/-- Go map read on a possibly-nil factory map. -/
def fLookup (m : FMap) (k : FKey) : Option FactoryFuncAny :=
  match m with
  | none => none
  | some l => alistLookup l k

/-- The heap of factory-registry map cells. -/
abbrev FHeap := List FMap

/-- `*FactoryRegistry`: a pointer to its factories-map field. -/
structure FactoryRegistry where
  ref : Nat

/-- Read a factory heap cell (out-of-range reads yield a nil map). -/
def fheapGet : FHeap → Nat → FMap
  | [], _ => none
  | m :: _, 0 => m
  | _ :: rest, n + 1 => fheapGet rest n

/-- Write a factory heap cell in place. -/
def fheapSet : FHeap → Nat → FMap → FHeap
  | [], _, _ => []
  | _ :: rest, 0, m => m :: rest
  | x :: rest, n + 1, m => x :: fheapSet rest n m

/-- `NewFactoryRegistry()`: allocates a registry with a pre-initialized
empty map. -/
def NewFactoryRegistry (σ : FHeap) : FactoryRegistry × FHeap :=
  (⟨σ.length⟩, σ ++ [some []])

/-- `(*FactoryRegistry).registerFactory`: under the write lock, lazily
replaces a nil map with an empty one, then writes the entry (overwrite on
duplicate key). Always succeeds; no error path. -/
def FactoryRegistry.registerFactory (σ : FHeap) (r : FactoryRegistry)
    (key : FKey) (factory : FactoryFuncAny) : FHeap :=
  match fheapGet σ r.ref with
  | none => fheapSet σ r.ref (some [(key, factory)])
  | some l => fheapSet σ r.ref (some ((key, factory) :: l))

/-- `(*FactoryRegistry).getFactory`: map read under the read lock. -/
def FactoryRegistry.getFactory (σ : FHeap) (r : FactoryRegistry)
    (key : FKey) : Option FactoryFuncAny :=
  fLookup (fheapGet σ r.ref) key

/-- `SealedFactoryRegistry`: an immutable resolver holding the cloned map
contents by value. -/
structure SealedFactoryRegistry where
  factories : FMap

/-- `maps.Clone` on a factory map. -/
def fmapsClone (m : FMap) : FMap := m

/-- `(*FactoryRegistry).Seal`: snapshot the current map contents. -/
def FactoryRegistry.Seal (σ : FHeap) (r : FactoryRegistry) : SealedFactoryRegistry :=
  ⟨fmapsClone (fheapGet σ r.ref)⟩

/-- `(*SealedFactoryRegistry).getFactory`. -/
def SealedFactoryRegistry.getFactory (s : SealedFactoryRegistry)
    (key : FKey) : Option FactoryFuncAny :=
  fLookup s.factories key

/-- The `factoryResolver` interface: anything exposing `getFactory`. -/
structure FactoryResolver where
  getFn : FKey → Option FactoryFuncAny

/-- View a mutable factory registry (at a heap state) as a resolver. -/
def FactoryRegistry.toResolver (σ : FHeap) (r : FactoryRegistry) : FactoryResolver :=
  ⟨fun k => FactoryRegistry.getFactory σ r k⟩

/-- View a sealed factory registry as a resolver. -/
def SealedFactoryRegistry.toResolver (s : SealedFactoryRegistry) : FactoryResolver :=
  ⟨fun k => SealedFactoryRegistry.getFactory s k⟩

/-- The closure stored by `RegisterFactory`: narrows the incoming `data`
to the constructor's declared input type `DATA` (exact dynamic type
match; a nil interface never matches) and on mismatch returns
`ErrDataTypeNotSupported` carrying the expected and actual types without
invoking the constructor. -/
def factoryWrapper (DATA : GoType) (factory : GoVal → AnyVal × Option GoError) : FactoryFuncAny :=
  fun data =>
    match data with
    | some d =>
      if d.typeOf = DATA then factory d
      else (none, some (GoError.dataTypeNotSupported DATA (some d.typeOf)))
    | none => (none, some (GoError.dataTypeNotSupported DATA none))

/-- `RegisterFactory[KEY, DATA, T]`: stores the narrowing wrapper around
the typed constructor under `key` (overwrite on duplicate key). -/
def RegisterFactory (σ : FHeap) (r : FactoryRegistry) (key : FKey)
    (DATA : GoType) (factory : GoVal → AnyVal × Option GoError) : FHeap :=
  FactoryRegistry.registerFactory σ r key (factoryWrapper DATA factory)

/-- `CreateType(reg, key, data)`: looks up the factory by key, failing
with `ErrFactoryNotFound` carrying the key; otherwise invokes the stored
entry on the data and returns its result unchanged. -/
def CreateType (reg : FactoryResolver) (key : FKey) (data : AnyVal) : AnyVal × Option GoError :=
  match reg.getFn key with
  | none => (none, some (GoError.factoryNotFound key))
  | some factory => factory data

/-- A successful association-list lookup returns an entry stored under
the queried key. -/
theorem alistLookup_mem {κ α : Type} [DecidableEq κ] (l : List (κ × α)) (q : κ) (x : α)
    (h : alistLookup l q = some x) : (q, x) ∈ l := by
  induction l with
  | nil => simp [alistLookup] at h
  | cons p rest ih =>
    obtain ⟨k, y⟩ := p
    by_cases hk : k = q
    · subst hk
      simp [alistLookup] at h
      subst h
      exact List.mem_cons_self _ _
    · simp [alistLookup, hk] at h
      exact List.mem_cons_of_mem _ (ih h)

/-- Writing a heap cell preserves the heap's length. -/
theorem heapSet_length (σ : Heap) (n : Nat) (m : HMap) :
    (heapSet σ n m).length = σ.length := by
  induction σ generalizing n with
  | nil => rfl
  | cons x rest ih =>
    cases n with
    | zero => rfl
    | succ k => simpa [heapSet] using ih k

/-- Reading a just-written heap cell yields the written map. -/
theorem heapGet_heapSet_self (σ : Heap) (n : Nat) (m : HMap)
    (h : n < σ.length) : heapGet (heapSet σ n m) n = m := by
  induction σ generalizing n with
  | nil => simp at h
  | cons x rest ih =>
    cases n with
    | zero => rfl
    | succ k => exact ih k (Nat.lt_of_succ_lt_succ h)

/-- Reading the freshly appended cell of a heap. -/
theorem heapGet_append_self (σ : Heap) (m : HMap) :
    heapGet (σ ++ [m]) σ.length = m := by
  induction σ with
  | nil => rfl
  | cons x rest ih => simpa [heapGet] using ih

/-- Writing a factory heap cell preserves the heap's length. -/
theorem fheapSet_length (σ : FHeap) (n : Nat) (m : FMap) :
    (fheapSet σ n m).length = σ.length := by
  induction σ generalizing n with
  | nil => rfl
  | cons x rest ih =>
    cases n with
    | zero => rfl
    | succ k => simpa [fheapSet] using ih k

/-- Reading a just-written factory heap cell yields the written map. -/
theorem fheapGet_fheapSet_self (σ : FHeap) (n : Nat) (m : FMap)
    (h : n < σ.length) : fheapGet (fheapSet σ n m) n = m := by
  induction σ generalizing n with
  | nil => simp at h
  | cons x rest ih =>
    cases n with
    | zero => rfl
    | succ k => exact ih k (Nat.lt_of_succ_lt_succ h)

/-- Reading the freshly appended cell of a factory heap. -/
theorem fheapGet_append_self (σ : FHeap) (m : FMap) :
    fheapGet (σ ++ [m]) σ.length = m := by
  induction σ with
  | nil => rfl
  | cons x rest ih => simpa [fheapGet] using ih

/-- The contents of a dispatch-registry cell after `registerDispatch`:
the new entry sits in front (so it shadows any older binding of the same
identity), on top of the previous contents (the nil map counts as
empty). -/
theorem registerDispatch_get (σ : Heap) (r : DispatchRegistry) (t : GoType)
    (f : HandlerFuncAny) (h : r.ref < σ.length) :
    heapGet (DispatchRegistry.registerDispatch σ r t f) r.ref =
      some ((t, f) :: (heapGet σ r.ref).getD []) := by
  unfold DispatchRegistry.registerDispatch
  cases hm : heapGet σ r.ref with
  | none => simpa using heapGet_heapSet_self σ r.ref _ h
  | some l => simpa using heapGet_heapSet_self σ r.ref _ h

/-- The contents of a factory-registry cell after `registerFactory`. -/
theorem registerFactory_get (σ : FHeap) (r : FactoryRegistry) (k : FKey)
    (f : FactoryFuncAny) (h : r.ref < σ.length) :
    fheapGet (FactoryRegistry.registerFactory σ r k f) r.ref =
      some ((k, f) :: (fheapGet σ r.ref).getD []) := by
  unfold FactoryRegistry.registerFactory
  cases hm : fheapGet σ r.ref with
  | none => simpa using fheapGet_fheapSet_self σ r.ref _ h
  | some l => simpa using fheapGet_fheapSet_self σ r.ref _ h

/-- A handler map all of whose entries were produced by `RegisterDispatch`:
every stored entry is the assertion wrapper `wrapTypedHandler` applied at
exactly the type identity the entry is keyed by. -/
def wfMap (hm : HMap) : Prop :=
  ∀ l, hm = some l → ∀ k e, (k, e) ∈ l → ∃ th, e = wrapTypedHandler k th

/-- In a well-formed map, a successful lookup yields the wrapper at the
queried identity. -/
theorem wfMap_lookup (hm : HMap) (w : wfMap hm) (t : GoType) (e : HandlerFuncAny)
    (h : hLookup hm (some t) = some e) : ∃ th, e = wrapTypedHandler t th := by
  cases hm with
  | none => simp [hLookup] at h
  | some l => exact w l rfl t e (alistLookup_mem l t e h)

/-- A cross-cutting observer middleware: records `name ++ "-before"`, runs
the rest of the chain, records `name ++ "-after"` (a panic unwinds past
the after-record). -/
def logMW (name : String) : DispatchMiddleware :=
  fun c _ next => fun s =>
    match next c (s ++ [name ++ "-before"]) with
    | (s1, Except.error p) => (s1, Except.error p)
    | (s1, Except.ok e) => (s1 ++ [name ++ "-after"], Except.ok e)

/-- A typed observer middleware: records `name ++ "-before"`, runs the
inner handler, records `name ++ "-after"`. -/
def logTMW (name : String) : Middleware :=
  fun next => fun c val => fun s =>
    match next c val (s ++ [name ++ "-before"]) with
    | (s1, e) => (s1 ++ [name ++ "-after"], e)

/-- C1: Dispatch resolves handlers with a one-directional pointer
fallback: an exact-identity match is always tried first; with a handler
registered for `T` (and none for pointer-to-`T`), dispatching a
pointer-to-`T` value invokes that handler with the dereferenced value;
with a handler registered only for pointer-to-`T`, dispatching a bare
(non-pointer) `T` value fails with `HandlerNotFound`. -/
theorem c1_pointer_fallback_one_direction (hm : HMap) (ctx : Ctx) :
    (∀ (p : GoVal) (e : HandlerFuncAny),
      hLookup hm (some (GoType.ptr p.typeOf)) = none →
      hLookup hm (some p.typeOf) = some e →
      Dispatch (SealedDispatchRegistry.toDispatcher ⟨hm⟩) ctx (some (GoVal.ptrVal p)) [] =
        e ctx (some p)) ∧
    (∀ (val : GoVal) (e : HandlerFuncAny),
      val.typeOf.isPtr = false →
      hLookup hm (some (GoType.ptr val.typeOf)) = some e →
      hLookup hm (some val.typeOf) = none →
      Dispatch (SealedDispatchRegistry.toDispatcher ⟨hm⟩) ctx (some val) [] =
        fun s => (s, Except.ok (some (GoError.handlerNotFound val.typeOf)))) ∧
    (∀ (v : AnyVal) (e : HandlerFuncAny),
      hLookup hm (typeOfAny v) = some e →
      Dispatch (SealedDispatchRegistry.toDispatcher ⟨hm⟩) ctx v [] = e ctx v) := by
  refine ⟨?_, ?_, ?_⟩
  · intro p e h1 h2
    simp [Dispatch, SealedDispatchRegistry.toDispatcher, SealedDispatchRegistry.call,
      callOnMap, call, typeOfAny, GoVal.typeOf, h1, h2, GoType.isPtr, GoType.elem, derefAny]
  · intro val e hbare hptr hmiss
    simp [Dispatch, SealedDispatchRegistry.toDispatcher, SealedDispatchRegistry.call,
      callOnMap, call, typeOfAny, hmiss, hbare]
  · intro v e h
    simp [Dispatch, SealedDispatchRegistry.toDispatcher, SealedDispatchRegistry.call,
      callOnMap, call, h]

/-- A sample type-erased handler entry used in concrete witnesses. -/
def eW : HandlerFuncAny := fun _ _ => fun s => (s, Except.ok none)

/-- A sample handler map for concrete witnesses: one entry, keyed by the
base type 0. -/
def hmW : HMap := some [(GoType.base 0, eW)]

/-- C1 witness: with a handler registered for base type 0 only,
dispatching a pointer to a base-0 value invokes it with the pointee. -/
theorem c1_witness :
    Dispatch (SealedDispatchRegistry.toDispatcher ⟨hmW⟩) 0
      (some (GoVal.ptrVal (GoVal.baseVal 0 5))) [] = eW 0 (some (GoVal.baseVal 0 5)) :=
  (c1_pointer_fallback_one_direction hmW 0).1 (GoVal.baseVal 0 5) eW rfl rfl

/-- C8: dispatching a (non-nil) value whose type has no registered
handler under the exact identity nor under the pointer fallback returns
`HandlerNotFound` carrying that type identity, and the trace is left
unchanged — no handler or registered entry is invoked. -/
theorem c8_unknown_type_dispatch (hm : HMap) (ctx : Ctx) (gv : GoVal)
    (h1 : hLookup hm (some gv.typeOf) = none)
    (h2 : gv.typeOf.isPtr = true → hLookup hm (some gv.typeOf.elem) = none) :
    ∀ s, Dispatch (SealedDispatchRegistry.toDispatcher ⟨hm⟩) ctx (some gv) [] s =
      (s, Except.ok (some (GoError.handlerNotFound gv.typeOf))) := by
  intro s
  cases hp : gv.typeOf.isPtr with
  | false =>
    simp [Dispatch, SealedDispatchRegistry.toDispatcher, SealedDispatchRegistry.call,
      callOnMap, call, typeOfAny, h1, hp]
  | true =>
    simp [Dispatch, SealedDispatchRegistry.toDispatcher, SealedDispatchRegistry.call,
      callOnMap, call, typeOfAny, h1, hp, h2 hp]

/-- C8 witness: base type 1 has no handler in the sample map. -/
theorem c8_witness :
    Dispatch (SealedDispatchRegistry.toDispatcher ⟨hmW⟩) 0 (some (GoVal.baseVal 1 0)) [] [] =
      ([], Except.ok (some (GoError.handlerNotFound (GoType.base 1)))) :=
  c8_unknown_type_dispatch hmW 0 (GoVal.baseVal 1 0) rfl (fun h => absurd h (by decide)) []

/-- A sample typed handler used in concrete witnesses. -/
def thW : HandlerFunc := fun _ _ => fun s => (s ++ ["H"], none)

/-- The dispatch registry allocated on the empty heap. -/
def regW : DispatchRegistry := (NewDispatchRegistry []).1

/-- The heap after allocating `regW` and registering `thW` for base type
0 through the public `RegisterDispatch` API. -/
def heapW : Heap := RegisterDispatch (NewDispatchRegistry []).2 regW (GoType.base 0) thW []

/-- C2 counterexample: with a value handler registered for base type 0
through the public API, dispatching the nil interface value panics
(calling `Kind` on a nil `reflect.Type`), and dispatching a typed nil
pointer that resolves through the value-handler fallback panics
(`Interface` on the zero `Value` produced by `Elem` of a nil pointer) —
neither failure is surfaced as a returned error value. -/
theorem c2_counterexample :
    isPanic (Dispatch (DispatchRegistry.toDispatcher heapW regW) 0 none [] []).2 = true ∧
    isPanic (Dispatch (DispatchRegistry.toDispatcher heapW regW) 0
      (some (GoVal.nilPtr (GoType.base 0))) [] []).2 = true :=
  ⟨rfl, rfl⟩

/-- C2 (amended): registration, sealing and creation never panic (they
are total, returning values); dispatch of a non-nil value against a
registry whose entries were stored by `RegisterDispatch` never panics
unless the value is a typed nil pointer taken through the pointer
fallback — every other failure is a returned error value. -/
theorem c2_amended_no_panic (hm : HMap) (w : wfMap hm) (ctx : Ctx) (gv : GoVal)
    (hnil : ∀ t, gv = GoVal.nilPtr t → hLookup hm (some (GoType.ptr t)) = none →
      hLookup hm (some t) = none) :
    ∀ s, isPanic (Dispatch (SealedDispatchRegistry.toDispatcher ⟨hm⟩) ctx (some gv) [] s).2 = false := by
  intro s
  show isPanic (call (some gv.typeOf) ctx (some gv) hm s).2 = false
  cases hx : hLookup hm (some gv.typeOf) with
  | some e =>
    obtain ⟨th, rfl⟩ := wfMap_lookup hm w _ e hx
    simp [call, hx, wrapTypedHandler, liftOut, isPanic]
  | none =>
    cases gv with
    | baseVal n d =>
      simp only [GoVal.typeOf] at hx
      simp [call, hx, GoVal.typeOf, GoType.isPtr, isPanic]
    | ptrVal p =>
      simp only [GoVal.typeOf] at hx
      cases hy : hLookup hm (some p.typeOf) with
      | some e =>
        obtain ⟨th, rfl⟩ := wfMap_lookup hm w _ e hy
        simp [call, hx, hy, GoVal.typeOf, GoType.isPtr, GoType.elem, derefAny,
          wrapTypedHandler, liftOut, isPanic]
      | none =>
        simp [call, hx, hy, GoVal.typeOf, GoType.isPtr, GoType.elem, isPanic]
    | nilPtr t =>
      simp only [GoVal.typeOf] at hx
      have hz : hLookup hm (some t) = none := hnil t rfl hx
      simp [call, hx, hz, GoVal.typeOf, GoType.isPtr, GoType.elem, isPanic]

/-- A well-formed sample map: the single entry is the assertion wrapper
at its own key. -/
def hmWf : HMap := some [(GoType.base 0, wrapTypedHandler (GoType.base 0) thW)]

/-- The sample map is well-formed. -/
theorem hmWf_wf : wfMap hmWf := by
  intro l hl k e hmem
  cases hl
  simp only [List.mem_singleton] at hmem
  cases hmem
  exact ⟨thW, rfl⟩

/-- C2 witness: dispatching a non-nil base value against the well-formed
sample map does not panic. -/
theorem c2_witness :
    isPanic (Dispatch (SealedDispatchRegistry.toDispatcher ⟨hmWf⟩) 0
      (some (GoVal.baseVal 0 7)) [] []).2 = false :=
  c2_amended_no_panic hmWf hmWf_wf 0 (GoVal.baseVal 0 7) (fun _ ht => nomatch ht) []

/-- C3: with no cross-cutting middleware, `Dispatch` invokes the
resolver directly; with middleware list `[A, B]` around a base call
whose observable behavior is "append trace `t`, return `eo`" (any
registered handler), the observed execution order is A-before, B-before,
the base call, B-after, A-after — the chain wraps the base call with
each middleware iterating the list in reverse. -/
theorem c3_cross_middleware_order (disp : Dispatcher) (ctx : Ctx) (v : AnyVal)
    (A B : String) (t : List String) (eo : Option GoError) :
    (Dispatch disp ctx v [] = disp.callFn (typeOfAny v) ctx v) ∧
    ((∀ s, disp.callFn (typeOfAny v) ctx v s = (s ++ t, Except.ok eo)) →
      ∀ s, Dispatch disp ctx v [logMW A, logMW B] s =
        (s ++ [A ++ "-before", B ++ "-before"] ++ t ++ [B ++ "-after", A ++ "-after"],
          Except.ok eo)) := by
  constructor
  · rfl
  · intro hb s
    simp [Dispatch, logMW, hb, List.append_assoc]

/-- C3 witness: two observer middleware around the sample handler record
the claimed order. -/
theorem c3_witness :
    Dispatch (SealedDispatchRegistry.toDispatcher ⟨hmWf⟩) 0 (some (GoVal.baseVal 0 7))
      [logMW "A", logMW "B"] [] =
      ([] ++ ["A" ++ "-before", "B" ++ "-before"] ++ ["H"] ++ ["B" ++ "-after", "A" ++ "-after"],
        Except.ok none) :=
  (c3_cross_middleware_order (SealedDispatchRegistry.toDispatcher ⟨hmWf⟩) 0
    (some (GoVal.baseVal 0 7)) "A" "B" ["H"] none).2 (fun _ => rfl) []

/-- C4: registering a handler with typed middleware list `[M1, M2]`
stores an entry whose effective call order on dispatch is M1-before,
M2-before, the handler, M2-after, M1-after — the last-listed typed
middleware is innermost. -/
theorem c4_typed_middleware_order (σ : Heap) (r : DispatchRegistry) (h : HandlerFunc)
    (m1 m2 : String) (val : GoVal) (ctx : Ctx) (t : List String) (eo : Option GoError)
    (hr : r.ref < σ.length)
    (hh : ∀ s, h ctx val s = (s ++ t, eo)) :
    ∀ s, Dispatch (DispatchRegistry.toDispatcher
        (RegisterDispatch σ r val.typeOf h [logTMW m1, logTMW m2]) r) ctx (some val) [] s =
      (s ++ [m1 ++ "-before", m2 ++ "-before"] ++ t ++ [m2 ++ "-after", m1 ++ "-after"],
        Except.ok eo) := by
  intro s
  have hg := registerDispatch_get σ r val.typeOf
    (wrapTypedHandler val.typeOf (applyMiddleware h [logTMW m1, logTMW m2])) hr
  simp only [RegisterDispatch, applyMiddleware, List.foldr] at hg ⊢
  simp [Dispatch, DispatchRegistry.toDispatcher, DispatchRegistry.call, callOnMap, call,
    typeOfAny, hg, hLookup, alistLookup, wrapTypedHandler, logTMW,
    liftOut, hh, List.append_assoc]

/-- C4 witness: registering the sample handler with observer middleware
M1 and M2, then dispatching, records the claimed order. -/
theorem c4_witness :
    Dispatch (DispatchRegistry.toDispatcher
        (RegisterDispatch (NewDispatchRegistry []).2 regW (GoType.base 0) thW
          [logTMW "M1", logTMW "M2"]) regW) 0 (some (GoVal.baseVal 0 7)) [] [] =
      ([] ++ ["M1" ++ "-before", "M2" ++ "-before"] ++ ["H"] ++ ["M2" ++ "-after", "M1" ++ "-after"],
        Except.ok none) :=
  c4_typed_middleware_order (NewDispatchRegistry []).2 regW thW "M1" "M2"
    (GoVal.baseVal 0 7) 0 ["H"] none (by decide) (fun _ => rfl) []

/-- C5: `createType` fails with `FactoryNotFound` carrying the key when
no factory is registered under it; with a factory registered via
`RegisterFactory` for input type `DATA`, data of any other runtime type
fails with `DataTypeNotSupported` carrying the expected and actual types
(the result does not depend on `ctor` — the constructor is not invoked);
matching data yields exactly the constructor's result, not wrapped or
reinterpreted. -/
theorem c5_createType_behavior (σ : FHeap) (r : FactoryRegistry) (key : FKey)
    (data : AnyVal) (DATA : GoType) (ctor : GoVal → AnyVal × Option GoError)
    (hr : r.ref < σ.length) :
    (FactoryRegistry.getFactory σ r key = none →
      CreateType (FactoryRegistry.toResolver σ r) key data =
        (none, some (GoError.factoryNotFound key))) ∧
    (typeOfAny data ≠ some DATA →
      CreateType (FactoryRegistry.toResolver (RegisterFactory σ r key DATA ctor) r) key data =
        (none, some (GoError.dataTypeNotSupported DATA (typeOfAny data)))) ∧
    (∀ d, data = some d → d.typeOf = DATA →
      CreateType (FactoryRegistry.toResolver (RegisterFactory σ r key DATA ctor) r) key data =
        ctor d) := by
  have hg := registerFactory_get σ r key (factoryWrapper DATA ctor) hr
  refine ⟨?_, ?_, ?_⟩
  · intro hnone
    simp [CreateType, FactoryRegistry.toResolver, hnone]
  · intro hne
    cases data with
    | none =>
      simp [CreateType, FactoryRegistry.toResolver, FactoryRegistry.getFactory,
        RegisterFactory, hg, fLookup, alistLookup, factoryWrapper, typeOfAny]
    | some d =>
      have hdt : ¬(d.typeOf = DATA) := by
        intro h
        exact hne (by simp [typeOfAny, h])
      simp [CreateType, FactoryRegistry.toResolver, FactoryRegistry.getFactory,
        RegisterFactory, hg, fLookup, alistLookup, factoryWrapper, typeOfAny, hdt]
  · intro d hdata htyp
    subst hdata
    simp [CreateType, FactoryRegistry.toResolver, FactoryRegistry.getFactory,
      RegisterFactory, hg, fLookup, alistLookup, factoryWrapper, htyp]

/-- A sample factory registry allocated on the empty heap. -/
def fregW : FactoryRegistry := (NewFactoryRegistry []).1

/-- A sample typed constructor used in concrete witnesses. -/
def ctorW : GoVal → AnyVal × Option GoError :=
  fun _ => (some (GoVal.baseVal 9 0), none)

/-- C5 witness: with a factory for key "k" expecting base type 3, a
missing key, mismatched data, and matching data all behave as claimed. -/
theorem c5_witness :
    (CreateType (FactoryRegistry.toResolver (NewFactoryRegistry []).2 fregW)
        (FKey.str "k") (some (GoVal.baseVal 3 0)) =
      (none, some (GoError.factoryNotFound (FKey.str "k")))) ∧
    (CreateType (FactoryRegistry.toResolver
        (RegisterFactory (NewFactoryRegistry []).2 fregW (FKey.str "k") (GoType.base 3) ctorW)
        fregW) (FKey.str "k") (some (GoVal.baseVal 4 0)) =
      (none, some (GoError.dataTypeNotSupported (GoType.base 3) (some (GoType.base 4))))) ∧
    (CreateType (FactoryRegistry.toResolver
        (RegisterFactory (NewFactoryRegistry []).2 fregW (FKey.str "k") (GoType.base 3) ctorW)
        fregW) (FKey.str "k") (some (GoVal.baseVal 3 0)) =
      ctorW (GoVal.baseVal 3 0)) :=
  ⟨(c5_createType_behavior (NewFactoryRegistry []).2 fregW (FKey.str "k")
      (some (GoVal.baseVal 3 0)) (GoType.base 3) ctorW (by decide)).1 rfl,
   (c5_createType_behavior (NewFactoryRegistry []).2 fregW (FKey.str "k")
      (some (GoVal.baseVal 4 0)) (GoType.base 3) ctorW (by decide)).2.1 (by decide),
   (c5_createType_behavior (NewFactoryRegistry []).2 fregW (FKey.str "k")
      (some (GoVal.baseVal 3 0)) (GoType.base 3) ctorW (by decide)).2.2
      (GoVal.baseVal 3 0) rfl rfl⟩

/-- C7: registration is last-write-wins in both maps: after registering
`h1` then `h2` for the same type identity, dispatching a value of that
type runs exactly `h2` (the result does not depend on `h1`); after
registering `c1` then `c2` under the same factory key, `createType` with
matching data yields exactly `c2`'s result (no error for the duplicate —
registration has no error path). -/
theorem c7_last_write_wins (σ : Heap) (r : DispatchRegistry) (T : GoType)
    (h1 h2 : HandlerFunc) (val : GoVal) (ctx : Ctx)
    (fσ : FHeap) (fr : FactoryRegistry) (k : FKey) (DATA : GoType)
    (c1 c2 : GoVal → AnyVal × Option GoError) (d : GoVal)
    (hr : r.ref < σ.length) (hfr : fr.ref < fσ.length)
    (hv : val.typeOf = T) (hd : d.typeOf = DATA) :
    Dispatch (DispatchRegistry.toDispatcher
        (RegisterDispatch (RegisterDispatch σ r T h1 []) r T h2 []) r) ctx (some val) [] =
      liftOut (h2 ctx val) ∧
    CreateType (FactoryRegistry.toResolver
        (RegisterFactory (RegisterFactory fσ fr k DATA c1) fr k DATA c2) fr) k (some d) =
      c2 d := by
  constructor
  · have hr1 : r.ref < (RegisterDispatch σ r T h1 []).length := by
      unfold RegisterDispatch DispatchRegistry.registerDispatch
      cases heapGet σ r.ref <;> simpa [heapSet_length] using hr
    have hg := registerDispatch_get (RegisterDispatch σ r T h1 []) r T
      (wrapTypedHandler T (applyMiddleware h2 [])) hr1
    simp only [RegisterDispatch, applyMiddleware, List.foldr] at hg ⊢
    simp [Dispatch, DispatchRegistry.toDispatcher, DispatchRegistry.call, callOnMap, call,
      typeOfAny, hg, hLookup, alistLookup, hv, wrapTypedHandler]
  · have hfr1 : fr.ref < (RegisterFactory fσ fr k DATA c1).length := by
      unfold RegisterFactory FactoryRegistry.registerFactory
      cases fheapGet fσ fr.ref <;> simpa [fheapSet_length] using hfr
    have hg := registerFactory_get (RegisterFactory fσ fr k DATA c1) fr k
      (factoryWrapper DATA c2) hfr1
    simp only [RegisterFactory] at hg ⊢
    simp [CreateType, FactoryRegistry.toResolver, FactoryRegistry.getFactory,
      hg, fLookup, alistLookup, factoryWrapper, hd]

/-- C7 witness: with two handlers registered for base type 0 and two
factories under key "k", the second registration wins in both maps. -/
theorem c7_witness :
    Dispatch (DispatchRegistry.toDispatcher
        (RegisterDispatch (RegisterDispatch (NewDispatchRegistry []).2 regW (GoType.base 0)
          (fun _ _ => fun s => (s ++ ["first"], none)) []) regW (GoType.base 0) thW []) regW)
      0 (some (GoVal.baseVal 0 7)) [] =
      liftOut (thW 0 (GoVal.baseVal 0 7)) ∧
    CreateType (FactoryRegistry.toResolver
        (RegisterFactory (RegisterFactory (NewFactoryRegistry []).2 fregW (FKey.str "k")
          (GoType.base 3) (fun _ => (none, some (GoError.user 1)))) fregW (FKey.str "k")
          (GoType.base 3) ctorW) fregW) (FKey.str "k") (some (GoVal.baseVal 3 0)) =
      ctorW (GoVal.baseVal 3 0) :=
  c7_last_write_wins (NewDispatchRegistry []).2 regW (GoType.base 0)
    (fun _ _ => fun s => (s ++ ["first"], none)) thW (GoVal.baseVal 0 7) 0
    (NewFactoryRegistry []).2 fregW (FKey.str "k") (GoType.base 3)
    (fun _ => (none, some (GoError.user 1))) ctorW (GoVal.baseVal 3 0)
    (by decide) (by decide) rfl rfl

/-- C9: `registerDispatch` and `registerFactory` always succeed (they
are total map writes with no error path), for every registry state: in
particular on a registry whose backing map is nil the first write
lazily creates the map, and in every case the registration is observable
by a subsequent lookup. -/
theorem c9_register_total_lazy (σ : Heap) (r : DispatchRegistry) (t : GoType)
    (f : HandlerFuncAny) (fσ : FHeap) (fr : FactoryRegistry) (k : FKey)
    (g : FactoryFuncAny) (hr : r.ref < σ.length) (hfr : fr.ref < fσ.length) :
    hLookup (heapGet (DispatchRegistry.registerDispatch σ r t f) r.ref) (some t) = some f ∧
    (heapGet σ r.ref = none →
      heapGet (DispatchRegistry.registerDispatch σ r t f) r.ref = some [(t, f)]) ∧
    fLookup (fheapGet (FactoryRegistry.registerFactory fσ fr k g) fr.ref) k = some g ∧
    (fheapGet fσ fr.ref = none →
      fheapGet (FactoryRegistry.registerFactory fσ fr k g) fr.ref = some [(k, g)]) := by
  refine ⟨?_, ?_, ?_, ?_⟩
  · simp [registerDispatch_get σ r t f hr, hLookup, alistLookup]
  · intro h0
    unfold DispatchRegistry.registerDispatch
    simp [h0, heapGet_heapSet_self σ r.ref _ hr]
  · simp [registerFactory_get fσ fr k g hfr, fLookup, alistLookup]
  · intro h0
    unfold FactoryRegistry.registerFactory
    simp [h0, fheapGet_fheapSet_self fσ fr.ref _ hfr]

/-- C9 witness: on zero-value registries (nil backing maps in their
cells), a first registration initializes the map and is observable. -/
theorem c9_witness :
    hLookup (heapGet (DispatchRegistry.registerDispatch [none] ⟨0⟩ (GoType.base 0) eW) 0)
        (some (GoType.base 0)) = some eW ∧
    (heapGet ([none] : Heap) 0 = none →
      heapGet (DispatchRegistry.registerDispatch [none] ⟨0⟩ (GoType.base 0) eW) 0 =
        some [(GoType.base 0, eW)]) ∧
    fLookup (fheapGet (FactoryRegistry.registerFactory [none] ⟨0⟩ (FKey.str "k") (factoryWrapper (GoType.base 3) ctorW)) 0)
        (FKey.str "k") = some (factoryWrapper (GoType.base 3) ctorW) ∧
    (fheapGet ([none] : FHeap) 0 = none →
      fheapGet (FactoryRegistry.registerFactory [none] ⟨0⟩ (FKey.str "k") (factoryWrapper (GoType.base 3) ctorW)) 0 =
        some [(FKey.str "k", factoryWrapper (GoType.base 3) ctorW)]) :=
  c9_register_total_lazy [none] ⟨0⟩ (GoType.base 0) eW [none] ⟨0⟩ (FKey.str "k")
    (factoryWrapper (GoType.base 3) ctorW) (by decide) (by decide)

/-- `registerDispatch` preserves the heap's length. -/
theorem registerDispatch_length (σ : Heap) (r : DispatchRegistry) (t : GoType)
    (f : HandlerFuncAny) :
    (DispatchRegistry.registerDispatch σ r t f).length = σ.length := by
  unfold DispatchRegistry.registerDispatch
  cases heapGet σ r.ref <;> simp [heapSet_length]

/-- `registerFactory` preserves the heap's length. -/
theorem registerFactory_length (σ : FHeap) (r : FactoryRegistry) (k : FKey)
    (f : FactoryFuncAny) :
    (FactoryRegistry.registerFactory σ r k f).length = σ.length := by
  unfold FactoryRegistry.registerFactory
  cases fheapGet σ r.ref <;> simp [fheapSet_length]

/-- C6: `Seal` is a point-in-time snapshot. Starting from a fresh
registry, registering an entry, sealing, then registering a second entry
on the mutable registry: dispatch against the sealed copy for the
later-added type fails with `HandlerNotFound` while the seal-time entry
still resolves, and the later registration is visible through the
mutable registry itself; likewise for factories, where `createType`
against the sealed copy fails with `FactoryNotFound` for the later-added
key while the seal-time factory still resolves. -/
theorem c6_seal_snapshot (σ0 : Heap) (fσ0 : FHeap) (T1 T2 : GoType)
    (e1 e2 : HandlerFuncAny) (v1 v2 : GoVal) (ctx : Ctx)
    (k1 k2 : FKey) (f1 f2 : FactoryFuncAny) (data : AnyVal)
    (ht1 : v1.typeOf = T1) (ht2 : v2.typeOf = T2) (hne : T2 ≠ T1)
    (hbare : T2.isPtr = false) (hkne : k2 ≠ k1) :
    (Dispatch (SealedDispatchRegistry.toDispatcher (DispatchRegistry.Seal
        (DispatchRegistry.registerDispatch (NewDispatchRegistry σ0).2
          (NewDispatchRegistry σ0).1 T1 e1) (NewDispatchRegistry σ0).1)) ctx (some v2) [] =
      fun s => (s, Except.ok (some (GoError.handlerNotFound T2)))) ∧
    (Dispatch (SealedDispatchRegistry.toDispatcher (DispatchRegistry.Seal
        (DispatchRegistry.registerDispatch (NewDispatchRegistry σ0).2
          (NewDispatchRegistry σ0).1 T1 e1) (NewDispatchRegistry σ0).1)) ctx (some v1) [] =
      e1 ctx (some v1)) ∧
    (Dispatch (DispatchRegistry.toDispatcher
        (DispatchRegistry.registerDispatch
          (DispatchRegistry.registerDispatch (NewDispatchRegistry σ0).2
            (NewDispatchRegistry σ0).1 T1 e1)
          (NewDispatchRegistry σ0).1 T2 e2) (NewDispatchRegistry σ0).1) ctx (some v2) [] =
      e2 ctx (some v2)) ∧
    (CreateType (SealedFactoryRegistry.toResolver (FactoryRegistry.Seal
        (FactoryRegistry.registerFactory (NewFactoryRegistry fσ0).2
          (NewFactoryRegistry fσ0).1 k1 f1) (NewFactoryRegistry fσ0).1)) k2 data =
      (none, some (GoError.factoryNotFound k2))) ∧
    (CreateType (SealedFactoryRegistry.toResolver (FactoryRegistry.Seal
        (FactoryRegistry.registerFactory (NewFactoryRegistry fσ0).2
          (NewFactoryRegistry fσ0).1 k1 f1) (NewFactoryRegistry fσ0).1)) k1 data =
      f1 data) ∧
    (CreateType (FactoryRegistry.toResolver
        (FactoryRegistry.registerFactory
          (FactoryRegistry.registerFactory (NewFactoryRegistry fσ0).2
            (NewFactoryRegistry fσ0).1 k1 f1)
          (NewFactoryRegistry fσ0).1 k2 f2) (NewFactoryRegistry fσ0).1) k2 data =
      f2 data) := by
  have hr1 : (NewDispatchRegistry σ0).1.ref < (NewDispatchRegistry σ0).2.length := by
    simp [NewDispatchRegistry]
  have hg1 : heapGet (NewDispatchRegistry σ0).2 (NewDispatchRegistry σ0).1.ref = some [] := by
    simpa [NewDispatchRegistry] using heapGet_append_self σ0 (some [])
  have hg2 := registerDispatch_get (NewDispatchRegistry σ0).2 (NewDispatchRegistry σ0).1 T1 e1 hr1
  rw [hg1] at hg2
  simp only [Option.getD_some] at hg2
  have hr2 : (NewDispatchRegistry σ0).1.ref <
      (DispatchRegistry.registerDispatch (NewDispatchRegistry σ0).2
        (NewDispatchRegistry σ0).1 T1 e1).length := by
    simpa [registerDispatch_length] using hr1
  have hg3 := registerDispatch_get
    (DispatchRegistry.registerDispatch (NewDispatchRegistry σ0).2
      (NewDispatchRegistry σ0).1 T1 e1) (NewDispatchRegistry σ0).1 T2 e2 hr2
  rw [hg2] at hg3
  simp only [Option.getD_some] at hg3
  have hT1T2 : ¬(T1 = T2) := fun h => hne h.symm
  have hfr1 : (NewFactoryRegistry fσ0).1.ref < (NewFactoryRegistry fσ0).2.length := by
    simp [NewFactoryRegistry]
  have hfg1 : fheapGet (NewFactoryRegistry fσ0).2 (NewFactoryRegistry fσ0).1.ref = some [] := by
    simpa [NewFactoryRegistry] using fheapGet_append_self fσ0 (some [])
  have hfg2 := registerFactory_get (NewFactoryRegistry fσ0).2 (NewFactoryRegistry fσ0).1 k1 f1 hfr1
  rw [hfg1] at hfg2
  simp only [Option.getD_some] at hfg2
  have hfr2 : (NewFactoryRegistry fσ0).1.ref <
      (FactoryRegistry.registerFactory (NewFactoryRegistry fσ0).2
        (NewFactoryRegistry fσ0).1 k1 f1).length := by
    simpa [registerFactory_length] using hfr1
  have hfg3 := registerFactory_get
    (FactoryRegistry.registerFactory (NewFactoryRegistry fσ0).2
      (NewFactoryRegistry fσ0).1 k1 f1) (NewFactoryRegistry fσ0).1 k2 f2 hfr2
  rw [hfg2] at hfg3
  simp only [Option.getD_some] at hfg3
  have hk1k2 : ¬(k1 = k2) := fun h => hkne h.symm
  refine ⟨?_, ?_, ?_, ?_, ?_, ?_⟩
  · simp [Dispatch, SealedDispatchRegistry.toDispatcher, SealedDispatchRegistry.call,
      callOnMap, call, DispatchRegistry.Seal, mapsClone, hg2, typeOfAny, ht2,
      hLookup, alistLookup, hT1T2, hbare]
  · simp [Dispatch, SealedDispatchRegistry.toDispatcher, SealedDispatchRegistry.call,
      callOnMap, call, DispatchRegistry.Seal, mapsClone, hg2, typeOfAny, ht1,
      hLookup, alistLookup]
  · simp [Dispatch, DispatchRegistry.toDispatcher, DispatchRegistry.call,
      callOnMap, call, hg3, typeOfAny, ht2, hLookup, alistLookup]
  · simp [CreateType, SealedFactoryRegistry.toResolver, SealedFactoryRegistry.getFactory,
      FactoryRegistry.Seal, fmapsClone, hfg2, fLookup, alistLookup, hk1k2]
  · simp [CreateType, SealedFactoryRegistry.toResolver, SealedFactoryRegistry.getFactory,
      FactoryRegistry.Seal, fmapsClone, hfg2, fLookup, alistLookup]
  · simp [CreateType, FactoryRegistry.toResolver, FactoryRegistry.getFactory,
      hfg3, fLookup, alistLookup]

/-- C6 witness: base type 1, registered on the mutable registry after
sealing, is not found when dispatching against the sealed copy. -/
theorem c6_witness :
    (GoType.base 1) ≠ (GoType.base 0) ∧
    Dispatch (SealedDispatchRegistry.toDispatcher (DispatchRegistry.Seal
        (DispatchRegistry.registerDispatch (NewDispatchRegistry []).2
          (NewDispatchRegistry []).1 (GoType.base 0) eW) (NewDispatchRegistry []).1)) 0
      (some (GoVal.baseVal 1 1)) [] =
      fun s => (s, Except.ok (some (GoError.handlerNotFound (GoType.base 1)))) :=
  ⟨by decide,
   (c6_seal_snapshot [] [] (GoType.base 0) (GoType.base 1) eW eW (GoVal.baseVal 0 1)
      (GoVal.baseVal 1 1) 0 (FKey.str "a") (FKey.str "b")
      (factoryWrapper (GoType.base 3) ctorW) (factoryWrapper (GoType.base 3) ctorW) none
      rfl rfl (by decide) (by decide) (by decide)).1⟩

/-- Writing a heap cell and reading it back yields the written map, or
(when the reference is out of range, so the write was lost) nothing. -/
theorem heapGet_heapSet_or (σ : Heap) (n : Nat) (m : HMap) :
    heapGet (heapSet σ n m) n = m ∨ heapGet (heapSet σ n m) n = none := by
  induction σ generalizing n with
  | nil => right; rfl
  | cons x rest ih =>
    cases n with
    | zero => left; rfl
    | succ k => simpa [heapSet, heapGet] using ih k

/-- C10: the type-assertion guard inside stored entries is unreachable
through the public dispatch path. First, `RegisterDispatch` only ever
stores assertion wrappers keyed by their own type identity (`wfMap` is
preserved). Second, dispatching any non-nil value against such a map
either invokes the entry found under the value's exact identity — whose
wrapped typed handler then runs directly on the value (its dynamic type
equals the key, so the "expected T, got ..." branch is skipped) — or
invokes, via the pointer fallback, the pointee-keyed entry on the
dereferenced value (again exactly typed), or invokes no entry at all
(the trace is returned unchanged). -/
theorem c10_assert_guard_unreachable (hm : HMap) (w : wfMap hm) (ctx : Ctx) (gv : GoVal) :
    (∀ (σ : Heap) (r : DispatchRegistry) (T : GoType) (th : HandlerFunc)
      (mws : List Middleware), wfMap (heapGet σ r.ref) →
      wfMap (heapGet (RegisterDispatch σ r T th mws) r.ref)) ∧
    ((∃ th, hLookup hm (some gv.typeOf) = some (wrapTypedHandler gv.typeOf th) ∧
        Dispatch (SealedDispatchRegistry.toDispatcher ⟨hm⟩) ctx (some gv) [] =
          liftOut (th ctx gv)) ∨
     (∃ p th, gv = GoVal.ptrVal p ∧
        hLookup hm (some gv.typeOf) = none ∧
        hLookup hm (some p.typeOf) = some (wrapTypedHandler p.typeOf th) ∧
        Dispatch (SealedDispatchRegistry.toDispatcher ⟨hm⟩) ctx (some gv) [] =
          liftOut (th ctx p)) ∨
     (∀ s, (Dispatch (SealedDispatchRegistry.toDispatcher ⟨hm⟩) ctx (some gv) [] s).1 = s)) := by
  constructor
  · intro σ r T th mws wσ
    simp only [RegisterDispatch]
    unfold DispatchRegistry.registerDispatch
    cases hp : heapGet σ r.ref with
    | none =>
      rcases heapGet_heapSet_or σ r.ref
          (some [(T, wrapTypedHandler T (applyMiddleware th mws))]) with h | h <;> rw [h]
      · intro l hl k e hmem
        cases hl
        simp only [List.mem_singleton] at hmem
        cases hmem
        exact ⟨applyMiddleware th mws, rfl⟩
      · intro l hl
        exact nomatch hl
    | some l0 =>
      rcases heapGet_heapSet_or σ r.ref
          (some ((T, wrapTypedHandler T (applyMiddleware th mws)) :: l0)) with h | h <;> rw [h]
      · intro l hl k e hmem
        cases hl
        rcases List.mem_cons.mp hmem with hhd | htl
        · cases hhd
          exact ⟨applyMiddleware th mws, rfl⟩
        · exact wσ l0 hp k e htl
      · intro l hl
        exact nomatch hl
  · show (∃ th, hLookup hm (some gv.typeOf) = some (wrapTypedHandler gv.typeOf th) ∧
        call (some gv.typeOf) ctx (some gv) hm = liftOut (th ctx gv)) ∨
      (∃ p th, gv = GoVal.ptrVal p ∧
        hLookup hm (some gv.typeOf) = none ∧
        hLookup hm (some p.typeOf) = some (wrapTypedHandler p.typeOf th) ∧
        call (some gv.typeOf) ctx (some gv) hm = liftOut (th ctx p)) ∨
      (∀ s, (call (some gv.typeOf) ctx (some gv) hm s).1 = s)
    cases hx : hLookup hm (some gv.typeOf) with
    | some e =>
      obtain ⟨th, rfl⟩ := wfMap_lookup hm w _ e hx
      left
      exact ⟨th, rfl, by simp [call, hx, wrapTypedHandler]⟩
    | none =>
      cases gv with
      | baseVal n d =>
        right; right
        intro s
        simp only [GoVal.typeOf] at hx
        simp [call, hx, GoVal.typeOf, GoType.isPtr]
      | ptrVal p =>
        simp only [GoVal.typeOf] at hx
        cases hy : hLookup hm (some p.typeOf) with
        | some e =>
          obtain ⟨th, rfl⟩ := wfMap_lookup hm w _ e hy
          right; left
          refine ⟨p, th, rfl, by simp [GoVal.typeOf], hy, ?_⟩
          simp [call, hx, hy, GoVal.typeOf, GoType.isPtr, GoType.elem, derefAny,
            wrapTypedHandler]
        | none =>
          right; right
          intro s
          simp [call, hx, hy, GoVal.typeOf, GoType.isPtr, GoType.elem]
      | nilPtr t =>
        simp only [GoVal.typeOf] at hx
        right; right
        intro s
        cases hy : hLookup hm (some t) with
        | some e =>
          simp [call, hx, hy, GoVal.typeOf, GoType.isPtr, GoType.elem, derefAny]
        | none =>
          simp [call, hx, hy, GoVal.typeOf, GoType.isPtr, GoType.elem]

/-- C10 witness: the well-formed sample map, with a base-0 value
dispatched, satisfies the guard-unreachability trichotomy. -/
theorem c10_witness :
    wfMap hmWf ∧
    ((∀ (σ : Heap) (r : DispatchRegistry) (T : GoType) (th : HandlerFunc)
      (mws : List Middleware), wfMap (heapGet σ r.ref) →
      wfMap (heapGet (RegisterDispatch σ r T th mws) r.ref)) ∧
    ((∃ th, hLookup hmWf (some (GoVal.baseVal 0 7).typeOf) =
          some (wrapTypedHandler (GoVal.baseVal 0 7).typeOf th) ∧
        Dispatch (SealedDispatchRegistry.toDispatcher ⟨hmWf⟩) 0 (some (GoVal.baseVal 0 7)) [] =
          liftOut (th 0 (GoVal.baseVal 0 7))) ∨
     (∃ p th, GoVal.baseVal 0 7 = GoVal.ptrVal p ∧
        hLookup hmWf (some (GoVal.baseVal 0 7).typeOf) = none ∧
        hLookup hmWf (some p.typeOf) = some (wrapTypedHandler p.typeOf th) ∧
        Dispatch (SealedDispatchRegistry.toDispatcher ⟨hmWf⟩) 0 (some (GoVal.baseVal 0 7)) [] =
          liftOut (th 0 p)) ∨
     (∀ s, (Dispatch (SealedDispatchRegistry.toDispatcher ⟨hmWf⟩) 0
        (some (GoVal.baseVal 0 7)) [] s).1 = s))) :=
  ⟨hmWf_wf, c10_assert_guard_unreachable hmWf hmWf_wf 0 (GoVal.baseVal 0 7)⟩
